import Mathlib

/-!
Verification of the envelope-and-lifecycle core of the salesapi service:
the product handlers' error classification (handlers package, `Products`
methods) and the process shutdown coordinator (`cmd/salesapi/main.go`),
together with the `-config-only` JSON configuration dump.
-/

/-- Go error values as they flow through the `Products` handlers: the three
domain sentinel errors `products.ErrNotFound`, `products.ErrInvalidID` and
`products.ErrForbidden`; plain errors built by `errors.New`; decoration
added by `errors.Wrap`/`errors.Wrapf` (github.com/pkg/errors); and the
status annotation produced by `web.WrapErrorWithStatus`. The Go `switch err`
statements in the handlers compare error values for equality, which
`DecidableEq` mirrors: a wrapped sentinel is a different value than the bare
sentinel. -/
inductive GoErr where
  | errNotFound
  | errInvalidID
  | errForbidden
  | base (msg : String)
  | wrap (msg : String) (cause : GoErr)
  | withStatus (status : Nat) (cause : GoErr)
  deriving DecidableEq, Repr

/-- Whether a Go error value is (identically) one of the three domain
sentinel errors of the `products` package. -/
def isSentinel : GoErr → Bool
  | .errNotFound => true
  | .errInvalidID => true
  | .errForbidden => true
  | _ => false

namespace web

/-- Modelled from the spec: the `web` platform package is not under src/
(only its callers are). Step 4 of the classifier algorithm (§4.3): the
explicit status an error already carries because an inner layer
pre-classified it with `WrapErrorWithStatus`; diagnostic wrapping added
around the annotation is looked through. -/
def statusCarried : GoErr → Option Nat
  | .withStatus s _ => some s
  | .wrap _ e => statusCarried e
  | _ => none

/-- Modelled from the spec: the `web` platform package's error classifier
(`Classify`, §4.3) is not under src/; only its callers are. Ordered, first
match wins: the sentinel "not found" value → 404; the sentinel "invalid
identifier" value → 400; the sentinel "forbidden" value → 403 (sentinel
comparison is comparison against the fixed error value, per the glossary);
an error already carrying an explicit status code → that code verbatim;
otherwise → 500. The function is total by construction. -/
def Classify (err : GoErr) : Nat :=
  if err = .errNotFound then 404
  else if err = .errInvalidID then 400
  else if err = .errForbidden then 403
  else
    match statusCarried err with
    | some s => s
    | none => 500

end web

/-- Outcome of one handler invocation: either the handler responded with a
success status via `web.Respond`, or it returned a non-nil error to the
Handler Adapter. -/
inductive HandlerOutcome where
  | responded (status : Nat)
  | failed (err : GoErr)
  deriving DecidableEq, Repr

/-- HTTP status of the response a handler invocation leads to: the success
status the handler wrote itself, or the classification of the error it
returned. -/
def responseStatus : HandlerOutcome → Nat
  | .responded s => s
  | .failed e => web.Classify e

namespace Products

/-- `Products.List` (handlers, lines 25-32): a domain failure is wrapped
with "getting product list" and returned; success responds 200. The domain
call's outcome is passed in as `domainErr` (`some e` = the call returned
error `e`, `none` = it succeeded). -/
def List (domainErr : Option GoErr) : HandlerOutcome :=
  match domainErr with
  | some e => .failed (.wrap "getting product list" e)
  | none => .responded 200

/-- `Products.Create` (handlers, lines 36-53): a decode failure is wrapped
with "decoding new product"; then the identity claims are fetched from the
context, and their absence yields `errors.New "claims missing from
context"`; a domain failure is wrapped with "creating new product"; success
responds 201. -/
def Create (decodeErr : Option GoErr) (claimsPresent : Bool)
    (domainErr : Option GoErr) : HandlerOutcome :=
  match decodeErr with
  | some e => .failed (.wrap "decoding new product" e)
  | none =>
    if !claimsPresent then .failed (.base "claims missing from context")
    else
      match domainErr with
      | some e => .failed (.wrap "creating new product" e)
      | none => .responded 201

/-- `Products.Get` (handlers, lines 56-72): the domain error is switched on
by value — `ErrNotFound` → status 404 via `WrapErrorWithStatus`,
`ErrInvalidID` → status 400, anything else → `errors.Wrapf` with
`getting product %q` and no status; success responds 200. -/
def Get (id : String) (domainErr : Option GoErr) : HandlerOutcome :=
  match domainErr with
  | some e =>
    if e = .errNotFound then .failed (.withStatus 404 e)
    else if e = .errInvalidID then .failed (.withStatus 400 e)
    else .failed (.wrap ("getting product \"" ++ id ++ "\"") e)
  | none => .responded 200

/-- `Products.Update` (handlers, lines 76-103): decode failure → wrapped
"decoding product update"; missing claims → `errors.New "claims missing
from context"`; the domain error is switched on by value — `ErrNotFound` →
404, `ErrInvalidID` → 400, `ErrForbidden` → 403, anything else →
`errors.Wrapf` with `updating product %q` and no status; success responds
204. -/
def Update (id : String) (decodeErr : Option GoErr) (claimsPresent : Bool)
    (domainErr : Option GoErr) : HandlerOutcome :=
  match decodeErr with
  | some e => .failed (.wrap "decoding product update" e)
  | none =>
    if !claimsPresent then .failed (.base "claims missing from context")
    else
      match domainErr with
      | some e =>
        if e = .errNotFound then .failed (.withStatus 404 e)
        else if e = .errInvalidID then .failed (.withStatus 400 e)
        else if e = .errForbidden then .failed (.withStatus 403 e)
        else .failed (.wrap ("updating product \"" ++ id ++ "\"") e)
      | none => .responded 204

/-- `Products.Delete` (handlers, lines 106-119): the domain error is
switched on by value — `ErrInvalidID` → status 400 via
`WrapErrorWithStatus`; any other error, the not-found sentinel included, →
`errors.Wrapf` with `deleting product %q` and no status; success responds
204. -/
def Delete (id : String) (domainErr : Option GoErr) : HandlerOutcome :=
  match domainErr with
  | some e =>
    if e = .errInvalidID then .failed (.withStatus 400 e)
    else .failed (.wrap ("deleting product \"" ++ id ++ "\"") e)
  | none => .responded 204

/-- `Products.AddSale` (handlers, lines 123-137): decode failure → wrapped
"decoding new sale"; a domain failure is wrapped with "adding new sale" and
no status; success responds 201. -/
def AddSale (decodeErr : Option GoErr) (productID : String)
    (domainErr : Option GoErr) : HandlerOutcome :=
  match decodeErr with
  | some e => .failed (.wrap "decoding new sale" e)
  | none =>
    match domainErr with
    | some e => .failed (.wrap "adding new sale" e)
    | none => .responded 201

/-- `Products.ListSales` (handlers, lines 140-149): a domain failure is
wrapped with "getting sales list" and no status; success responds 200. -/
def ListSales (id : String) (domainErr : Option GoErr) : HandlerOutcome :=
  match domainErr with
  | some e => .failed (.wrap "getting sales list" e)
  | none => .responded 200

end Products

namespace salesapi

/-- `time.Second` in nanoseconds, the unit of Go `time.Duration`. -/
def timeSecond : Nat := 1000000000

/-- `const timeout = 15 * time.Second` (main.go line 121): the grace period
handed to `context.WithTimeout` for `server.Shutdown`. -/
def shutdownTimeout : Nat := 15 * timeSecond

/-- The event that wins the `select` in main.go lines 113-131: either the
`serverErrors` channel delivers the terminal `ListenAndServe` error, or the
`osSignals` channel delivers an interrupt/SIGTERM. Exactly one case of a Go
`select` runs. -/
inductive Trigger where
  | serverError (msg : String)
  | osSignal
  deriving DecidableEq, Repr

/-- Result of the `server.Shutdown(ctx)` call (main.go line 125): `ok` when
graceful shutdown completed before the 15-second deadline (nil error),
`deadlineExceeded` when the context deadline elapsed first, `failed` for
any other error from the graceful call. -/
inductive ShutdownRes where
  | ok
  | deadlineExceeded
  | failed (msg : String)
  deriving DecidableEq, Repr

/-- The error message `server.Shutdown` returns, `none` for a nil error.
A deadline overrun surfaces as the context's "context deadline exceeded". -/
def ShutdownRes.errMsg : ShutdownRes → Option String
  | .ok => none
  | .deadlineExceeded => some "context deadline exceeded"
  | .failed m => some m

/-- Result of the forced `server.Close()` call (main.go line 127). -/
inductive CloseRes where
  | ok
  | failed (msg : String)
  deriving DecidableEq, Repr

/-- Observable trace of one run of main.go lines 111-133: the log lines in
order, how many times `server.Shutdown` and `server.Close` were invoked,
how many events were received from each notification channel, the grace
period given to the shutdown context (`none` when no shutdown context was
created), and whether the run ended in `log.Fatalf` (which exits at once,
skipping the rest of `main`). -/
structure RunTrace where
  logs : List String
  shutdownCalls : Nat
  closeCalls : Nat
  signalsReceived : Nat
  serverErrorsReceived : Nat
  grace : Option Nat
  fatal : Bool
  deriving DecidableEq, Repr

/-- The shutdown coordinator of main.go lines 111-133, with the external
nondeterminism resolved by the arguments: `trigger` is the channel event
that wins the `select`; `sres` is what `server.Shutdown` returns if called;
`cres` is what `server.Close` returns if called; `extraSignals` counts
further signals queued on `osSignals` after the first — the code never
returns to the `select`, so they are never read. On a listener error the
code calls `log.Fatalf` (log then exit); on a signal it logs "caught
signal, shutting down", creates the 15-second context, calls
`server.Shutdown` once, calls `server.Close` exactly when `Shutdown`
returned a non-nil error, and finally logs "done". -/
def run (trigger : Trigger) (sres : ShutdownRes) (cres : CloseRes)
    (extraSignals : Nat) : RunTrace :=
  match trigger with
  | .serverError m =>
    { logs := ["startup complete", "error: listening and serving: " ++ m]
      shutdownCalls := 0
      closeCalls := 0
      signalsReceived := 0
      serverErrorsReceived := 1
      grace := none
      fatal := true }
  | .osSignal =>
    match sres.errMsg with
    | none =>
      { logs := ["startup complete", "caught signal, shutting down", "done"]
        shutdownCalls := 1
        closeCalls := 0
        signalsReceived := 1
        serverErrorsReceived := 0
        grace := some shutdownTimeout
        fatal := false }
    | some m =>
      let closeLogs : List String :=
        match cres with
        | .ok => []
        | .failed cm => ["error: closing server: " ++ cm]
      { logs := ["startup complete", "caught signal, shutting down",
                 "error: gracefully shutting down server: " ++ m]
                ++ closeLogs ++ ["done"]
        shutdownCalls := 1
        closeCalls := 1
        signalsReceived := 1
        serverErrorsReceived := 0
        grace := some shutdownTimeout
        fatal := false }

/-- The `DB` block of the `config` struct (main.go lines 28-35). The
`Password` field carries the struct tag `json:"-"`. -/
structure DBConfig where
  User : String
  Password : String
  Host : String
  Name : String
  DisableTLS : Bool
  deriving DecidableEq, Repr

/-- The `HTTP` block of the `config` struct (main.go lines 37-39). -/
structure HTTPConfig where
  Address : String
  deriving DecidableEq, Repr

/-- The `config` struct (main.go lines 25-40). -/
structure Config where
  DB : DBConfig
  HTTP : HTTPConfig
  deriving DecidableEq, Repr

/-- The struct-tag default configuration: user "postgres", password
"postgres", host "localhost", database name "postgres", TLS enabled,
listen address ":8000" (main.go lines 29-38). -/
def defaultCfg : Config :=
  ⟨⟨"postgres", "postgres", "localhost", "postgres", false⟩, ⟨":8000"⟩⟩

/-- JSON string escaping for the characters that can occur in configuration
values (quote and backslash); Go's `encoding/json` escaping of control and
HTML characters is elided, as no property here depends on it. -/
def jsonEscapeChar (c : Char) : String :=
  if c = '\\' then "\\\\"
  else if c = '"' then "\\\""
  else String.singleton c

/-- Escape a whole string for inclusion in JSON output. -/
def jsonEscape (s : String) : String :=
  String.join (s.toList.map jsonEscapeChar)

/-- A JSON string literal. -/
def jsonStr (s : String) : String := "\"" ++ jsonEscape s ++ "\""

/-- A JSON boolean literal. -/
def jsonBool (b : Bool) : String := if b then "true" else "false"

/-- What `json.NewEncoder(os.Stdout).Encode(cfg)` prints under the
`-config-only` flag (main.go lines 62-67): Go marshals exported fields
under their field names, skips `DB.Password` because of its `json:"-"`
tag, and the encoder appends a newline. -/
def encodeConfig (c : Config) : String :=
  "\x7b\"DB\":\x7b\"User\":" ++ jsonStr c.DB.User
    ++ ",\"Host\":" ++ jsonStr c.DB.Host
    ++ ",\"Name\":" ++ jsonStr c.DB.Name
    ++ ",\"DisableTLS\":" ++ jsonBool c.DB.DisableTLS
    ++ "\x7d,\"HTTP\":\x7b\"Address\":" ++ jsonStr c.HTTP.Address
    ++ "\x7d\x7d\n"

end salesapi

/-! Helper lemmas about the classifier. -/

/-- A non-sentinel error differs from each of the three sentinel values. -/
theorem isSentinel_eq_false {e : GoErr} (h : isSentinel e = false) :
    e ≠ .errNotFound ∧ e ≠ .errInvalidID ∧ e ≠ .errForbidden := by
  cases e <;> simp_all [isSentinel]

/-- A sentinel error carries no explicit status annotation. -/
theorem statusCarried_of_sentinel {e : GoErr} (h : isSentinel e = true) :
    web.statusCarried e = none := by
  cases e <;> simp_all [isSentinel, web.statusCarried]

/-- An error that is not a sentinel and carries no explicit status is
classified 500. -/
theorem web.Classify_eq_500 {e : GoErr} (h1 : isSentinel e = false)
    (h2 : web.statusCarried e = none) : web.Classify e = 500 := by
  obtain ⟨n1, n2, n3⟩ := isSentinel_eq_false h1
  simp [web.Classify, n1, n2, n3, h2]

/-! Claims about the handlers' error classification. -/

/-- C1 (counterexample): the claim says classification maps every sentinel
to its fixed status in every handler, the forbidden sentinel to 403; but
`Products.Get` has no forbidden case in its switch, so a forbidden sentinel
falls to the default branch, is wrapped without a status, and is classified
500, not 403. -/
theorem C1_counterexample :
    responseStatus (Products.Get "3aa0c8f0" (some .errForbidden)) = 500 ∧
    responseStatus (Products.Get "3aa0c8f0" (some .errForbidden)) ≠ 403 := by
  decide

/-- C1 (amended): each handler maps, first match wins, exactly the
sentinels its own switch recognizes — Get: not-found → 404 and invalid-id →
400; Update: not-found → 404, invalid-id → 400, forbidden → 403; Delete:
invalid-id → 400. A domain error that matches no sentinel and carries no
explicit status is classified 500, and a sentinel a handler's switch does
not recognize (forbidden in Get, not-found in Delete) is likewise
classified 500. -/
theorem C1_handler_classification (id : String) (e : GoErr)
    (h1 : isSentinel e = false) (h2 : web.statusCarried e = none) :
    responseStatus (Products.Get id (some .errNotFound)) = 404 ∧
    responseStatus (Products.Get id (some .errInvalidID)) = 400 ∧
    responseStatus (Products.Update id none true (some .errNotFound)) = 404 ∧
    responseStatus (Products.Update id none true (some .errInvalidID)) = 400 ∧
    responseStatus (Products.Update id none true (some .errForbidden)) = 403 ∧
    responseStatus (Products.Delete id (some .errInvalidID)) = 400 ∧
    responseStatus (Products.Get id (some e)) = 500 ∧
    responseStatus (Products.Update id none true (some e)) = 500 ∧
    responseStatus (Products.Delete id (some e)) = 500 ∧
    responseStatus (Products.Get id (some .errForbidden)) = 500 ∧
    responseStatus (Products.Delete id (some .errNotFound)) = 500 := by
  obtain ⟨n1, n2, n3⟩ := isSentinel_eq_false h1
  refine ⟨?_, ?_, ?_, ?_, ?_, ?_, ?_, ?_, ?_, ?_, ?_⟩ <;>
    simp [responseStatus, Products.Get, Products.Update, Products.Delete,
      web.Classify, web.statusCarried, n1, n2, n3, h2]

/-- C1 (witness): the amended classification evaluated at a concrete
product id and the concrete non-sentinel error `errors.New "boom"`. -/
theorem C1_handler_classification_witness :
    responseStatus (Products.Get "p1" (some (.base "boom"))) = 500 ∧
    responseStatus (Products.Delete "p1" (some .errNotFound)) = 500 :=
  ⟨(C1_handler_classification "p1" (.base "boom") (by decide)
      (by decide)).2.2.2.2.2.2.1,
   (C1_handler_classification "p1" (.base "boom") (by decide)
      (by decide)).2.2.2.2.2.2.2.2.2.2⟩

/-- C3 (counterexample): the claim says a DELETE on a well-formed but
non-existent id, for which the domain layer returns the not-found sentinel,
is classified 404; but `Products.Delete` only recognizes the invalid-id
sentinel, so the not-found sentinel is wrapped without a status and the
response status is 500. -/
theorem C3_counterexample :
    responseStatus (Products.Delete "98b6d4b8-f04b-4c79-8c2e-a0aef90854db"
      (some .errNotFound)) = 500 ∧
    responseStatus (Products.Delete "98b6d4b8-f04b-4c79-8c2e-a0aef90854db"
      (some .errNotFound)) ≠ 404 := by
  decide

/-- C3 (amended): for every product id, when the domain layer returns the
not-found sentinel to `Products.Delete`, the handler wraps it with
"deleting product %q" and no status, so the error is classified 500. -/
theorem C3_delete_not_found (id : String) :
    Products.Delete id (some .errNotFound) =
      .failed (.wrap ("deleting product \"" ++ id ++ "\"") .errNotFound) ∧
    responseStatus (Products.Delete id (some .errNotFound)) = 500 := by
  constructor
  · simp [Products.Delete]
  · simp [responseStatus, Products.Delete, web.Classify, web.statusCarried]

/-- C4 (counterexample): the claim says classification of a sentinel is
unchanged by wrapping added before classification; but the handlers'
switches compare the error by value, so the not-found sentinel wrapped with
"extra context" is classified 500 by `Products.Update` while the bare
sentinel is classified 404. -/
theorem C4_counterexample :
    responseStatus (Products.Update "p77" none true
      (some (.wrap "extra context" .errNotFound))) = 500 ∧
    responseStatus (Products.Update "p77" none true (some .errNotFound)) = 404 := by
  decide

/-- C4 (amended): for every sentinel E, classification of the bare E by
`Products.Update` yields the fixed status of §4.3 deterministically
(not-found → 404, invalid-id → 400, forbidden → 403); but the switch
compares errors by value, so E wrapped with a contextual message before
classification falls to the default branch and is classified 500. -/
theorem C4_sentinel_classification (id m : String) (e : GoErr)
    (h : isSentinel e = true) :
    responseStatus (Products.Update id none true (some .errNotFound)) = 404 ∧
    responseStatus (Products.Update id none true (some .errInvalidID)) = 400 ∧
    responseStatus (Products.Update id none true (some .errForbidden)) = 403 ∧
    responseStatus (Products.Update id none true (some (.wrap m e))) = 500 := by
  have hs : web.statusCarried e = none := statusCarried_of_sentinel h
  refine ⟨?_, ?_, ?_, ?_⟩ <;>
    simp [responseStatus, Products.Update, web.Classify, web.statusCarried, hs]

/-- C4 (witness): the amended statement evaluated at a concrete id, the
concrete wrapping message "extra context" and the forbidden sentinel. -/
theorem C4_sentinel_classification_witness :
    responseStatus (Products.Update "p77" none true
      (some (.wrap "extra context" .errForbidden))) = 500 :=
  (C4_sentinel_classification "p77" "extra context" .errForbidden
    (by decide)).2.2.2

/-- C5: every error that matches no sentinel and carries no pre-classified
status is classified 500, and the classifier is total: every error value
maps to some status (it is a total function, so it cannot raise). -/
theorem C5_classifier_total (e : GoErr) (h1 : isSentinel e = false)
    (h2 : web.statusCarried e = none) :
    web.Classify e = 500 ∧ ∀ e2 : GoErr, ∃ s : Nat, web.Classify e2 = s :=
  ⟨web.Classify_eq_500 h1 h2, fun e2 => ⟨web.Classify e2, rfl⟩⟩

/-- C5 (witness): the unrecognized error `errors.New "unexpected failure"`
is classified 500. -/
theorem C5_classifier_total_witness :
    web.Classify (.base "unexpected failure") = 500 :=
  (C5_classifier_total (.base "unexpected failure") (by decide) (by decide)).1

/-! Claims about the shutdown coordinator and the configuration dump. -/

/-- C2: on a termination signal the coordinator calls `server.Shutdown`
exactly once with a context whose grace period is the 15-second timeout;
when the graceful call returns nil the run ends normally (no `log.Fatalf`)
with "done" as the last log and no forced close; when the graceful call
returns an error — the deadline elapsing included — `server.Close` is
invoked exactly once. Reaching `Stopped` is modelled as the run ending
non-fatally with "done" as its final log. -/
theorem C2_graceful_shutdown (sres : salesapi.ShutdownRes)
    (cres : salesapi.CloseRes) (n : Nat) :
    (salesapi.run .osSignal sres cres n).shutdownCalls = 1 ∧
    (salesapi.run .osSignal sres cres n).grace = some salesapi.shutdownTimeout ∧
    salesapi.shutdownTimeout = 15 * salesapi.timeSecond ∧
    (sres = .ok →
      (salesapi.run .osSignal sres cres n).closeCalls = 0 ∧
      (salesapi.run .osSignal sres cres n).fatal = false ∧
      (salesapi.run .osSignal sres cres n).logs.getLast? = some "done") ∧
    (sres ≠ .ok → (salesapi.run .osSignal sres cres n).closeCalls = 1) := by
  cases sres <;> cases cres <;>
    simp [salesapi.run, salesapi.ShutdownRes.errMsg, salesapi.shutdownTimeout,
      salesapi.timeSecond]

/-- C2 (witness): with graceful completion the forced close is not invoked;
with the deadline elapsed it is invoked exactly once. -/
theorem C2_graceful_shutdown_witness :
    (salesapi.run .osSignal .ok .ok 0).closeCalls = 0 ∧
    (salesapi.run .osSignal .deadlineExceeded .ok 0).closeCalls = 1 :=
  ⟨((C2_graceful_shutdown .ok .ok 0).2.2.2.1 rfl).1,
   (C2_graceful_shutdown .deadlineExceeded .ok 0).2.2.2.2 (by decide)⟩

/-- C6: every run observes exactly one shutdown trigger — one receive from
the signal channel or one from the listener-error channel, never both and
never more — and signals queued after the first are never read: the whole
observable trace is unchanged by any number of further queued signals
(first-signal-wins). -/
theorem C6_first_signal_wins (t : salesapi.Trigger)
    (sres : salesapi.ShutdownRes) (cres : salesapi.CloseRes) (n n2 : Nat) :
    salesapi.run t sres cres n = salesapi.run t sres cres n2 ∧
    (salesapi.run t sres cres n).signalsReceived +
      (salesapi.run t sres cres n).serverErrorsReceived = 1 ∧
    (salesapi.run t sres cres n).signalsReceived ≤ 1 := by
  refine ⟨rfl, ?_, ?_⟩ <;> cases t <;> cases sres <;> cases cres <;>
    simp [salesapi.run, salesapi.ShutdownRes.errMsg]

/-- C7: every run logs "startup complete" first; on the signal path the
triggering event is logged ("caught signal, shutting down"), "done" is the
final log and the run ends without `log.Fatalf`; on the listener-error path
the run's logs are exactly the startup line followed by the failure log
"error: listening and serving: ..." and the run terminates fatally (so no
"done" on that path, matching the claim's carve-out for fatal serve
errors). -/
theorem C7_exit_logging (t : salesapi.Trigger) (sres : salesapi.ShutdownRes)
    (cres : salesapi.CloseRes) (n : Nat) :
    (salesapi.run t sres cres n).logs.head? = some "startup complete" ∧
    (t = .osSignal →
      (salesapi.run t sres cres n).logs[1]? =
        some "caught signal, shutting down" ∧
      (salesapi.run t sres cres n).logs.getLast? = some "done" ∧
      (salesapi.run t sres cres n).fatal = false) ∧
    (∀ m : String, t = .serverError m →
      (salesapi.run t sres cres n).logs =
        ["startup complete", "error: listening and serving: " ++ m] ∧
      (salesapi.run t sres cres n).fatal = true) := by
  cases t with
  | serverError m0 =>
    refine ⟨rfl, ?_, ?_⟩
    · intro h
      simp at h
    · intro m hm
      injection hm with h2
      subst h2
      exact ⟨rfl, rfl⟩
  | osSignal =>
    refine ⟨?_, ?_, ?_⟩
    · cases sres <;> cases cres <;> rfl
    · intro _
      cases sres <;> cases cres <;> exact ⟨rfl, rfl, rfl⟩
    · intro m hm
      simp at hm

/-- C7 (witness): the logging guarantees evaluated on the signal path and
on a concrete listener failure. -/
theorem C7_exit_logging_witness :
    (salesapi.run .osSignal .ok .ok 0).logs.getLast? = some "done" ∧
    (salesapi.run (.serverError "listen tcp :8000: bind: address already in use")
        .ok .ok 0).logs =
      ["startup complete",
       "error: listening and serving: listen tcp :8000: bind: address already in use"] :=
  ⟨((C7_exit_logging .osSignal .ok .ok 0).2.1 rfl).2.1,
   ((C7_exit_logging (.serverError "listen tcp :8000: bind: address already in use")
        .ok .ok 0).2.2
      "listen tcp :8000: bind: address already in use" rfl).1⟩

/-- C8: in `Products.Create` and `Products.Update`, when the identity
claims are absent from the request context (and the body decoded, so the
claims check is reached), the handler returns `errors.New "claims missing
from context"`, an error with no explicit status annotation, and it is
classified Internal (500) — not any 4xx status — whatever the domain layer
would have returned. -/
theorem C8_missing_claims (id : String) (d d2 : Option GoErr) :
    Products.Create none false d =
      .failed (.base "claims missing from context") ∧
    Products.Update id none false d2 =
      .failed (.base "claims missing from context") ∧
    web.statusCarried (.base "claims missing from context") = none ∧
    responseStatus (Products.Create none false d) = 500 ∧
    responseStatus (Products.Update id none false d2) = 500 :=
  ⟨rfl, rfl, rfl, rfl, rfl⟩

/-- C9: for every domain error carrying no pre-classified status — the
not-found and invalid-id sentinels included — `Products.AddSale` wraps it
with "adding new sale" and `Products.ListSales` with "getting sales list",
neither attaching a status, so every such failure is classified Internal
(500). -/
theorem C9_sales_errors_internal (pid id : String) (e : GoErr)
    (h : web.statusCarried e = none) :
    Products.AddSale none pid (some e) =
      .failed (.wrap "adding new sale" e) ∧
    Products.ListSales id (some e) =
      .failed (.wrap "getting sales list" e) ∧
    responseStatus (Products.AddSale none pid (some e)) = 500 ∧
    responseStatus (Products.ListSales id (some e)) = 500 := by
  refine ⟨rfl, rfl, ?_, ?_⟩ <;>
    simp [responseStatus, Products.AddSale, Products.ListSales,
      web.Classify, web.statusCarried, h]

/-- C9 (witness): the not-found sentinel inside `AddSale` and the
invalid-id sentinel inside `ListSales` both lead to status 500. -/
theorem C9_sales_errors_internal_witness :
    responseStatus (Products.AddSale none "c2f1b136" (some .errNotFound)) = 500 ∧
    responseStatus (Products.ListSales "c2f1b136" (some .errInvalidID)) = 500 :=
  ⟨(C9_sales_errors_internal "c2f1b136" "c2f1b136" .errNotFound
      (by decide)).2.2.1,
   (C9_sales_errors_internal "c2f1b136" "c2f1b136" .errInvalidID
      (by decide)).2.2.2⟩

/-- C10 (counterexample): with the shipped default configuration the
password's value is "postgres", and the `-config-only` JSON output does
contain the string "postgres" (as the User and Name values), so the output
is not free of the password's text for every value of the password
field. -/
theorem C10_counterexample :
    salesapi.defaultCfg.DB.Password = "postgres" ∧
    ∃ pre post : String,
      salesapi.encodeConfig salesapi.defaultCfg = pre ++ "postgres" ++ post :=
  ⟨rfl,
   "\x7b\"DB\":\x7b\"User\":\"",
   "\",\"Host\":\"localhost\",\"Name\":\"postgres\",\"DisableTLS\":false\x7d,\"HTTP\":\x7b\"Address\":\":8000\"\x7d\x7d\n",
   by decide⟩

/-- C10 (amended): the `-config-only` JSON output is independent of the
database password's value — because of the `json:"-"` tag the password
field is never marshalled, so any two configurations differing only in the
password produce byte-identical output; the password's text can appear in
the output only where it coincides with another printed field's value. -/
theorem C10_password_not_marshalled (u p p2 h nm a : String) (tls : Bool) :
    salesapi.encodeConfig ⟨⟨u, p, h, nm, tls⟩, ⟨a⟩⟩ =
      salesapi.encodeConfig ⟨⟨u, p2, h, nm, tls⟩, ⟨a⟩⟩ := rfl
